import Mathlib

/-!
Shallow embedding of the risk-scoring and labeling engine of the
Risk-Analysis repository (src/generator/generator.py): the threshold
configuration `THRESHOLDS`, the vitals sub-score `wearable_risk_score`,
the full per-record scorer `rule_label_row` and the label mapping
`map_total_to_label`.

Modelling conventions:
* Python floats are modelled as rationals `ℚ`; every numeric threshold in
  the source (37.8, 38.5, ...) is exactly representable, and every
  comparison the claims touch is exact in both float and rational
  arithmetic, so the embedding is faithful on the claimed behaviour.
* An optional vital that is absent or NaN is modelled as `none : Option ℚ`;
  Python comparisons with NaN are false, which the helpers `optLt`,
  `optGt`, `optGe` reproduce.
* The sequential `score += ...` blocks of the source become one named
  block function per signal, threaded in source order; `rule_total` is
  their composition, and `rule_label_row` maps the total through the
  label bands exactly as the source does.
-/

namespace RiskGen

/-- Heart-rate cutoffs, the "hr" entry of THRESHOLDS. -/
structure HrCfg where
  low_upper : ℚ
  mod_upper : ℚ
  high_upper : ℚ
  low_lower : ℚ
  mod_lower : ℚ
  high_lower : ℚ

/-- Oxygen-saturation cutoffs, the "spo2" entry of THRESHOLDS. -/
structure SpO2Cfg where
  low : ℚ
  mod : ℚ
  high : ℚ

/-- Skin-temperature cutoffs, the "skin_temp" entry of THRESHOLDS. -/
structure SkinCfg where
  fever_low : ℚ
  fever_high : ℚ
  hypo_low : ℚ
  hypo_high : ℚ

/-- Blood-pressure cutoffs, the "bp_sys" and "bp_dia" entries of THRESHOLDS. -/
structure BpCfg where
  high1 : ℚ
  high2 : ℚ
  high3 : ℚ
  low1 : ℚ
  low2 : ℚ
  low3 : ℚ

/-- Step-count cutoffs, the "steps" entry of THRESHOLDS. -/
structure StepsCfg where
  very_low : ℤ
  low : ℤ
  very_high : ℤ

/-- Altitude/oxygen interaction cutoffs, the "altitude_spo2" entry of THRESHOLDS. -/
structure AltCfg where
  alt_high1 : ℚ
  alt_high2 : ℚ
  spo2_soft : ℚ
  spo2_hard : ℚ
  spo2_crit : ℚ

/-- The whole THRESHOLDS configuration dictionary. -/
structure Thresholds where
  hr : HrCfg
  spo2 : SpO2Cfg
  skin_temp : SkinCfg
  bp_sys : BpCfg
  bp_dia : BpCfg
  steps : StepsCfg
  altitude_spo2 : AltCfg
  label_bands : List (ℤ × ℤ × String)

/-- The THRESHOLDS constant of generator.py, lines 135-144, verbatim. -/
def THRESHOLDS : Thresholds where
  hr := { low_upper := 110, mod_upper := 130, high_upper := 140,
          low_lower := 60, mod_lower := 50, high_lower := 45 }
  spo2 := { low := 95, mod := 92, high := 88 }
  skin_temp := { fever_low := 37.8, fever_high := 38.5,
                 hypo_low := 35.5, hypo_high := 35.0 }
  bp_sys := { high1 := 140, high2 := 160, high3 := 180,
              low1 := 90, low2 := 80, low3 := 70 }
  bp_dia := { high1 := 90, high2 := 100, high3 := 110,
              low1 := 60, low2 := 50, low3 := 45 }
  steps := { very_low := 2000, low := 400, very_high := 30000 }
  altitude_spo2 := { alt_high1 := 2500, alt_high2 := 3000,
                     spo2_soft := 94, spo2_hard := 92, spo2_crit := 88 }
  label_bands := [(0, 2, "LOW"), (3, 6, "MODERATE"), (7, 11, "HIGH"), (12, 99, "CRITICAL")]

/-- Python `x < c` where x may be NaN/absent: false when the value is missing. -/
def optLt (x : Option ℚ) (c : ℚ) : Bool :=
  match x with
  | none => false
  | some v => decide (v < c)

/-- Python `x > c` where x may be NaN/absent: false when the value is missing. -/
def optGt (x : Option ℚ) (c : ℚ) : Bool :=
  match x with
  | none => false
  | some v => decide (v > c)

/-- Python `x >= c` where x may be NaN/absent: false when the value is missing. -/
def optGe (x : Option ℚ) (c : ℚ) : Bool :=
  match x with
  | none => false
  | some v => decide (v ≥ c)

/-- The heart-rate block of wearable_risk_score (generator.py lines 148-152). -/
def hrBlock (score : ℤ) (hr_bpm : Option ℚ) (cfg : Thresholds) : ℤ :=
  match hr_bpm with
  | none => score
  | some v =>
    if v > cfg.hr.high_upper ∨ v < cfg.hr.high_lower then score + 3
    else if v > cfg.hr.mod_upper ∨ v < cfg.hr.mod_lower then score + 2
    else if v > cfg.hr.low_upper ∨ v < cfg.hr.low_lower then score + 1
    else score

/-- The oxygen-saturation block of wearable_risk_score (generator.py lines 153-157). -/
def spo2Block (score : ℤ) (spo2_pct : Option ℚ) (cfg : Thresholds) : ℤ :=
  match spo2_pct with
  | none => score
  | some v =>
    if v < cfg.spo2.high then score + 3
    else if v < cfg.spo2.mod then score + 2
    else if v < cfg.spo2.low then score + 1
    else score

/-- The skin-temperature block of wearable_risk_score (generator.py lines 158-163). -/
def stBlock (score : ℤ) (skin_temp_c : Option ℚ) (cfg : Thresholds) : ℤ :=
  match skin_temp_c with
  | none => score
  | some v =>
    if v ≥ cfg.skin_temp.fever_high then score + 3
    else if v ≥ cfg.skin_temp.fever_low then score + 2
    else if v ≤ cfg.skin_temp.hypo_high then score + 2
    else if v ≤ cfg.skin_temp.hypo_low then score + 1
    else score

/-- wearable_risk_score (generator.py lines 146-164): score starts at 0 and the
three vitals blocks run in source order. -/
def wearable_risk_score (hr_bpm spo2_pct skin_temp_c : Option ℚ) (cfg : Thresholds) : ℤ :=
  stBlock (spo2Block (hrBlock 0 hr_bpm cfg) spo2_pct cfg) skin_temp_c cfg

/-- map_total_to_label (generator.py lines 166-170): first band whose inclusive
range contains the total, else the fallback "LOW". -/
def map_total_to_label (total : ℤ) : List (ℤ × ℤ × String) → String
  | [] => "LOW"
  | (lo, hi, lab) :: rest =>
    if lo ≤ total ∧ total ≤ hi then lab else map_total_to_label total rest

/-- One record row as consumed by rule_label_row: the five vitals may be
absent/NaN; altitude, steps, past_incident_flag (an int compared to 1) and
weather_condition (a string) are always present. -/
structure Record where
  hr_bpm : Option ℚ
  spo2_pct : Option ℚ
  skin_temp : Option ℚ
  bloodpressure_systolic : Option ℚ
  bp_diastolic : Option ℚ
  altitude : ℚ
  steps : ℤ
  past_incident_flag : ℤ
  weather_condition : String

/-- The systolic blood-pressure block of rule_label_row (lines 180-186). -/
def sysBlock (score : ℤ) (sys : Option ℚ) (cfg : Thresholds) : ℤ :=
  match sys with
  | none => score
  | some v =>
    if v ≥ cfg.bp_sys.high3 then score + 3
    else if v ≥ cfg.bp_sys.high2 then score + 2
    else if v ≥ cfg.bp_sys.high1 then score + 1
    else if v ≤ cfg.bp_sys.low3 then score + 3
    else if v ≤ cfg.bp_sys.low2 then score + 2
    else if v ≤ cfg.bp_sys.low1 then score + 1
    else score

/-- The diastolic blood-pressure block of rule_label_row (lines 187-193). -/
def diaBlock (score : ℤ) (dia : Option ℚ) (cfg : Thresholds) : ℤ :=
  match dia with
  | none => score
  | some v =>
    if v ≥ cfg.bp_dia.high3 then score + 2
    else if v ≥ cfg.bp_dia.high2 then score + 2
    else if v ≥ cfg.bp_dia.high1 then score + 1
    else if v ≤ cfg.bp_dia.low3 then score + 2
    else if v ≤ cfg.bp_dia.low2 then score + 2
    else if v ≤ cfg.bp_dia.low1 then score + 1
    else score

/-- The altitude × SpO2 interaction block of rule_label_row (lines 195-204);
a missing spo2 makes both comparisons false, as NaN does in the source. -/
def altBlock (score : ℤ) (alt : ℚ) (spo2 : Option ℚ) (cfg : Thresholds) : ℤ :=
  if alt ≥ cfg.altitude_spo2.alt_high2 ∧ optLt spo2 cfg.altitude_spo2.spo2_hard then
    (if optLt spo2 cfg.altitude_spo2.spo2_crit then (score + 3) + 1 else score + 3)
  else if alt ≥ cfg.altitude_spo2.alt_high1 ∧ optLt spo2 cfg.altitude_spo2.spo2_soft then
    score + 2
  else score

/-- The step-count block of rule_label_row (lines 206-214); the 1000 is the
inline literal of line 211. -/
def stepsBlock (score : ℤ) (steps : ℤ) (cfg : Thresholds) : ℤ :=
  if steps ≤ cfg.steps.very_low then score + 2
  else if steps ≤ 1000 then score + 1
  else if steps ≥ cfg.steps.very_high then score + 1
  else score

/-- The past-incident block of rule_label_row (lines 217-218). -/
def incBlock (score : ℤ) (flag : ℤ) : ℤ :=
  if flag = 1 then score + 2 else score

/-- The weather block of rule_label_row (lines 221-229); the Hot branch reads
skin_temp and hr_bpm with NaN-tolerant comparisons. -/
def weatherBlock (score : ℤ) (w : String) (skin_temp hr_bpm : Option ℚ) : ℤ :=
  if w = "Storm" then score + 2
  else if w = "Rain" ∨ w = "Snow" ∨ w = "Fog" then score + 1
  else if w = "Hot" then
    (if optGe skin_temp 37.8 || optGt hr_bpm 110 then score + 1 else score)
  else score

/-- The integer total computed by rule_label_row (generator.py lines 172-230)
before label mapping: the blocks run in source order on the vitals base score. -/
def rule_total (r : Record) : ℤ :=
  weatherBlock
    (incBlock
      (stepsBlock
        (altBlock
          (diaBlock
            (sysBlock
              (wearable_risk_score r.hr_bpm r.spo2_pct r.skin_temp THRESHOLDS)
              r.bloodpressure_systolic THRESHOLDS)
            r.bp_diastolic THRESHOLDS)
          r.altitude r.spo2_pct THRESHOLDS)
        r.steps THRESHOLDS)
      r.past_incident_flag)
    r.weather_condition r.skin_temp r.hr_bpm

/-- rule_label_row (generator.py line 231): map the total through the bands. -/
def rule_label_row (r : Record) : String :=
  map_total_to_label (rule_total r) THRESHOLDS.label_bands

/-- Heart-rate contribution in isolation: the hr block started from 0. -/
def hrScore (x : Option ℚ) : ℤ := hrBlock 0 x THRESHOLDS

/-- SpO2 contribution in isolation: the spo2 block started from 0. -/
def spo2Score (x : Option ℚ) : ℤ := spo2Block 0 x THRESHOLDS

/-- Skin-temperature contribution in isolation: the skin-temp block started from 0. -/
def stScore (x : Option ℚ) : ℤ := stBlock 0 x THRESHOLDS

/-- Systolic contribution in isolation: the systolic block started from 0. -/
def sysScore (x : Option ℚ) : ℤ := sysBlock 0 x THRESHOLDS

/-- Diastolic contribution in isolation: the diastolic block started from 0. -/
def diaScore (x : Option ℚ) : ℤ := diaBlock 0 x THRESHOLDS

/-- Altitude × SpO2 interaction contribution in isolation. -/
def altScore (alt : ℚ) (spo2 : Option ℚ) : ℤ := altBlock 0 alt spo2 THRESHOLDS

/-- Step-count (activity) contribution in isolation. -/
def stepsScore (n : ℤ) : ℤ := stepsBlock 0 n THRESHOLDS

/-- Past-incident contribution in isolation. -/
def incScore (flag : ℤ) : ℤ := incBlock 0 flag

/-- Weather contribution in isolation. -/
def weatherScore (w : String) (skin_temp hr_bpm : Option ℚ) : ℤ :=
  weatherBlock 0 w skin_temp hr_bpm

lemma hrBlock_eq (s : ℤ) (x : Option ℚ) (cfg : Thresholds) :
    hrBlock s x cfg = s + hrBlock 0 x cfg := by
  cases x <;> simp only [hrBlock]
  · ring
  · split_ifs <;> ring

lemma spo2Block_eq (s : ℤ) (x : Option ℚ) (cfg : Thresholds) :
    spo2Block s x cfg = s + spo2Block 0 x cfg := by
  cases x <;> simp only [spo2Block]
  · ring
  · split_ifs <;> ring

lemma stBlock_eq (s : ℤ) (x : Option ℚ) (cfg : Thresholds) :
    stBlock s x cfg = s + stBlock 0 x cfg := by
  cases x <;> simp only [stBlock]
  · ring
  · split_ifs <;> ring

lemma sysBlock_eq (s : ℤ) (x : Option ℚ) (cfg : Thresholds) :
    sysBlock s x cfg = s + sysBlock 0 x cfg := by
  cases x <;> simp only [sysBlock]
  · ring
  · split_ifs <;> ring

lemma diaBlock_eq (s : ℤ) (x : Option ℚ) (cfg : Thresholds) :
    diaBlock s x cfg = s + diaBlock 0 x cfg := by
  cases x <;> simp only [diaBlock]
  · ring
  · split_ifs <;> ring

lemma altBlock_eq (s : ℤ) (a : ℚ) (x : Option ℚ) (cfg : Thresholds) :
    altBlock s a x cfg = s + altBlock 0 a x cfg := by
  simp only [altBlock]
  split_ifs <;> ring

lemma stepsBlock_eq (s n : ℤ) (cfg : Thresholds) :
    stepsBlock s n cfg = s + stepsBlock 0 n cfg := by
  simp only [stepsBlock]
  split_ifs <;> ring

lemma incBlock_eq (s f : ℤ) : incBlock s f = s + incBlock 0 f := by
  simp only [incBlock]
  split_ifs <;> ring

lemma weatherBlock_eq (s : ℤ) (w : String) (st hr : Option ℚ) :
    weatherBlock s w st hr = s + weatherBlock 0 w st hr := by
  simp only [weatherBlock]
  split_ifs <;> ring

/-- The vitals score splits into the three independent contributions. -/
lemma wearable_decomp (h sp st : Option ℚ) :
    wearable_risk_score h sp st THRESHOLDS = hrScore h + spo2Score sp + stScore st := by
  simp only [wearable_risk_score, hrScore, spo2Score, stScore]
  rw [stBlock_eq, spo2Block_eq]

/-- The full total splits into the nine independent signal contributions. -/
lemma rule_total_decomp (r : Record) :
    rule_total r =
      hrScore r.hr_bpm + spo2Score r.spo2_pct + stScore r.skin_temp +
      sysScore r.bloodpressure_systolic + diaScore r.bp_diastolic +
      altScore r.altitude r.spo2_pct + stepsScore r.steps +
      incScore r.past_incident_flag +
      weatherScore r.weather_condition r.skin_temp r.hr_bpm := by
  simp only [rule_total, sysScore, diaScore, altScore, stepsScore, incScore, weatherScore]
  rw [weatherBlock_eq, incBlock_eq, stepsBlock_eq, altBlock_eq, diaBlock_eq, sysBlock_eq,
    wearable_decomp]


lemma weatherBlock_of_not_special (s : ℤ) (w : String) (st hr : Option ℚ)
    (hSt : w ≠ "Storm") (hR : w ≠ "Rain") (hSn : w ≠ "Snow") (hF : w ≠ "Fog")
    (hH : w ≠ "Hot") : weatherBlock s w st hr = s := by
  simp only [weatherBlock]
  rw [if_neg hSt, if_neg (by simp [hR, hSn, hF]), if_neg hH]

/-- The concrete record of the end-to-end scenario of the spec (section 8). -/
def rec6 : Record where
  hr_bpm := some 150
  spo2_pct := some 90
  skin_temp := some 36
  bloodpressure_systolic := some 100
  bp_diastolic := some 70
  altitude := 1000
  steps := 5000
  past_incident_flag := 0
  weather_condition := "Clear"

/-- A record whose weather string is outside the eight-value enum. -/
def sunnyRec : Record where
  hr_bpm := none
  spo2_pct := none
  skin_temp := none
  bloodpressure_systolic := none
  bp_diastolic := none
  altitude := 0
  steps := 5000
  past_incident_flag := 0
  weather_condition := "Sunny"

/-- C1 counterexample: a total of 100 is in no configured band, so the
fallback fires and the mapping returns "LOW", not "CRITICAL". -/
theorem c1_fallback_counterexample :
    map_total_to_label 100 THRESHOLDS.label_bands = "LOW" ∧
    map_total_to_label 100 THRESHOLDS.label_bands ≠ "CRITICAL" := by
  decide

/-- C1 (amended): for non-negative totals the mapping is LOW on 0-2,
MODERATE on 3-6, HIGH on 7-11, CRITICAL on 12-99, and LOW again (via the
fallback) on every total at least 100; so CRITICAL holds exactly on 12-99
and LOW holds exactly on totals at most 2 or at least 100, and the bands
are not exhaustive over the non-negative integers. -/
theorem c1_label_band_mapping (t : ℤ) (ht : 0 ≤ t) :
    map_total_to_label t THRESHOLDS.label_bands =
      (if t ≤ 2 then "LOW" else if t ≤ 6 then "MODERATE" else if t ≤ 11 then "HIGH"
        else if t ≤ 99 then "CRITICAL" else "LOW") ∧
    (map_total_to_label t THRESHOLDS.label_bands = "CRITICAL" ↔ 12 ≤ t ∧ t ≤ 99) ∧
    (map_total_to_label t THRESHOLDS.label_bands = "LOW" ↔ t ≤ 2 ∨ 100 ≤ t) := by
  have hb : THRESHOLDS.label_bands =
      [(0, 2, "LOW"), (3, 6, "MODERATE"), (7, 11, "HIGH"), (12, 99, "CRITICAL")] := rfl
  have he : map_total_to_label t THRESHOLDS.label_bands =
      (if t ≤ 2 then "LOW" else if t ≤ 6 then "MODERATE" else if t ≤ 11 then "HIGH"
        else if t ≤ 99 then "CRITICAL" else "LOW") := by
    rw [hb]
    simp only [map_total_to_label]
    split_ifs <;> first | rfl | omega
  refine ⟨he, ?_, ?_⟩ <;> rw [he] <;> split_ifs <;>
    first
      | exact iff_of_true rfl (by omega)
      | exact iff_of_false (by decide) (by omega)

theorem c1_label_band_mapping_witness :
    map_total_to_label 13 THRESHOLDS.label_bands = "CRITICAL" :=
  ((c1_label_band_mapping 13 (by norm_num)).2.1).mpr (by norm_num)

/-- C2 counterexample: with only spo2 present at exactly 88.0 the vitals
sub-score is 2, not the claimed 3, because the tier test is strict. -/
theorem c2_spo2_boundary_counterexample :
    wearable_risk_score none (some 88) none THRESHOLDS = 2 ∧
    wearable_risk_score none (some 88) none THRESHOLDS ≠ 3 := by
  decide

/-- C2 (amended): with only the named vital present the vitals sub-score is
2 for spo2 = 88.0 and 2 for spo2 = 88.1 (strict comparison puts 88.0 in the
moderate tier), and 2 for hr = 140.0 and 3 for hr = 140.1. -/
theorem c2_boundary_tiers :
    wearable_risk_score none (some 88) none THRESHOLDS = 2 ∧
    wearable_risk_score none (some (88.1 : ℚ)) none THRESHOLDS = 2 ∧
    wearable_risk_score (some 140) none none THRESHOLDS = 2 ∧
    wearable_risk_score (some (140.1 : ℚ)) none none THRESHOLDS = 3 := by
  refine ⟨by decide, ?_, by decide, ?_⟩ <;>
    norm_num [wearable_risk_score, stBlock, spo2Block, hrBlock, THRESHOLDS]

/-- C3 counterexample: a record whose weather string is outside the enum is
scored to completion (no validation error exists in the code) and the
weather signal contributes zero. -/
theorem c3_unknown_weather_counterexample :
    sunnyRec.weather_condition ∉
      ["Clear", "Hot", "Cold", "Rain", "Storm", "Snow", "Windy", "Fog"] ∧
    rule_label_row sunnyRec = "LOW" ∧
    weatherScore sunnyRec.weather_condition sunnyRec.skin_temp sunnyRec.hr_bpm = 0 := by
  refine ⟨by decide, ?_, by decide⟩
  norm_num [rule_label_row, rule_total, weatherBlock, incBlock, stepsBlock, altBlock,
    diaBlock, sysBlock, wearable_risk_score, stBlock, spo2Block, hrBlock, optLt, optGt,
    optGe, THRESHOLDS, sunnyRec, map_total_to_label]
  decide

/-- C3 (amended): for every record whose weather_condition is outside the
eight-value enum, rule_label_row completes normally, the weather block adds
nothing to any score, and the resulting label is the same as if the weather
had been "Clear" (which also contributes zero). -/
theorem c3_unknown_weather_scores_zero (r : Record)
    (h : r.weather_condition ∉
      ["Clear", "Hot", "Cold", "Rain", "Storm", "Snow", "Windy", "Fog"]) :
    (∀ s : ℤ, weatherBlock s r.weather_condition r.skin_temp r.hr_bpm = s) ∧
    rule_label_row r = rule_label_row { r with weather_condition := "Clear" } := by
  simp only [List.mem_cons, List.not_mem_nil, or_false] at h
  push_neg at h
  obtain ⟨hC, hH, hCo, hR, hSt, hSn, hW, hF⟩ := h
  have hw : ∀ s : ℤ, weatherBlock s r.weather_condition r.skin_temp r.hr_bpm = s :=
    fun s => weatherBlock_of_not_special s _ _ _ hSt hR hSn hF hH
  refine ⟨hw, ?_⟩
  have hClear : ∀ s : ℤ, weatherBlock s "Clear" r.skin_temp r.hr_bpm = s := fun s =>
    weatherBlock_of_not_special s "Clear" r.skin_temp r.hr_bpm (by decide) (by decide)
      (by decide) (by decide) (by decide)
  unfold rule_label_row
  rw [rule_total_decomp, rule_total_decomp]
  dsimp only
  rw [show weatherScore r.weather_condition r.skin_temp r.hr_bpm = 0 from hw 0,
    show weatherScore "Clear" r.skin_temp r.hr_bpm = 0 from hClear 0]

theorem c3_unknown_weather_scores_zero_witness :
    (∀ s : ℤ, weatherBlock s sunnyRec.weather_condition sunnyRec.skin_temp
      sunnyRec.hr_bpm = s) ∧
    rule_label_row sunnyRec = rule_label_row { sunnyRec with weather_condition := "Clear" } :=
  c3_unknown_weather_scores_zero sunnyRec (by decide)


/-- C4: the total decomposes into nine independent per-signal contributions;
each contribution built from a missing (absent/NaN) optional vital is exactly
zero, and under Hot weather the two escalation comparisons are false (not an
error) when their vital is missing, so the Hot bonus is not added. -/
theorem c4_missing_vitals_contribute_zero (r : Record) :
    rule_total r =
      hrScore r.hr_bpm + spo2Score r.spo2_pct + stScore r.skin_temp +
      sysScore r.bloodpressure_systolic + diaScore r.bp_diastolic +
      altScore r.altitude r.spo2_pct + stepsScore r.steps +
      incScore r.past_incident_flag +
      weatherScore r.weather_condition r.skin_temp r.hr_bpm ∧
    hrScore none = 0 ∧ spo2Score none = 0 ∧ stScore none = 0 ∧
    sysScore none = 0 ∧ diaScore none = 0 ∧
    (∀ a : ℚ, altScore a none = 0) ∧
    optGe none (37.8 : ℚ) = false ∧ optGt none (110 : ℚ) = false ∧
    (∀ s : ℤ, weatherBlock s "Hot" none none = s) := by
  refine ⟨rule_total_decomp r, rfl, rfl, rfl, rfl, rfl, ?_, rfl, rfl, ?_⟩
  · intro a
    simp [altScore, altBlock, optLt]
  · intro s
    simp [weatherBlock, optGe, optGt]

/-- C5: at altitude 3200 with spo2 = 85 the interaction block contributes
3 + 1 = 4 and the independent spo2 vitals tier contributes 3, an oxygen
subtotal of 7; on the hard-threshold branch the result is decided there
(the soft +2 branch is skipped), so the two interaction branches are
mutually exclusive. -/
theorem c5_altitude_oxygen_stacking :
    altScore 3200 (some 85) = 4 ∧ spo2Score (some 85) = 3 ∧
    altScore 3200 (some 85) + spo2Score (some 85) = 7 ∧
    (∀ a s : ℚ, a ≥ 3000 → s < 92 →
      altScore a (some s) = (if s < 88 then 4 else 3)) := by
  refine ⟨by decide, by decide, by decide, ?_⟩
  intro a s ha hs
  simp only [altScore, altBlock, optLt, THRESHOLDS, decide_eq_true_eq]
  rw [if_pos ⟨ha, hs⟩]
  split_ifs <;> norm_num

theorem c5_altitude_oxygen_stacking_witness :
    altScore 3200 (some 85) = (if (85 : ℚ) < 88 then 4 else 3) :=
  c5_altitude_oxygen_stacking.2.2.2 3200 85 (by norm_num) (by norm_num)

/-- C6: the end-to-end scenario record scores exactly 5 (hr 3, spo2 2, all
other signals 0) and is labeled MODERATE. -/
theorem c6_end_to_end_moderate :
    rule_total rec6 = 5 ∧ rule_label_row rec6 = "MODERATE" ∧
    hrScore (some 150) = 3 ∧ spo2Score (some 90) = 2 ∧ stScore (some 36) = 0 ∧
    sysScore (some 100) = 0 ∧ diaScore (some 70) = 0 ∧ altScore 1000 (some 90) = 0 ∧
    stepsScore 5000 = 0 ∧ incScore 0 = 0 ∧ weatherScore "Clear" (some 36) (some 150) = 0 := by
  refine ⟨?_, ?_, by decide, by decide, ?_, by decide, by decide, by decide, by decide,
    by decide, by decide⟩
  · norm_num [rule_total, weatherBlock, incBlock, stepsBlock, altBlock, diaBlock, sysBlock,
      wearable_risk_score, stBlock, spo2Block, hrBlock, optLt, optGt, optGe, THRESHOLDS, rec6]
    decide
  · norm_num [rule_label_row, rule_total, weatherBlock, incBlock, stepsBlock, altBlock,
      diaBlock, sysBlock, wearable_risk_score, stBlock, spo2Block, hrBlock, optLt, optGt,
      optGe, THRESHOLDS, rec6, map_total_to_label]
    decide
  · norm_num [stScore, stBlock, THRESHOLDS]

/-- C7: the skin-temperature contribution follows the source tier chain
(3 if at least 38.5, else 2 if at least 37.8, else 2 if at most 35.0, else
1 if at most 35.5, else 0); in particular every reading at most 35.0 scores
2 and every reading strictly above 35.0 and at most 35.5 scores 1. -/
theorem c7_skin_temp_tiers :
    (∀ t : ℚ, stScore (some t) =
      (if t ≥ 38.5 then 3 else if t ≥ 37.8 then 2 else if t ≤ 35.0 then 2
        else if t ≤ 35.5 then 1 else 0)) ∧
    (∀ t : ℚ, t ≤ 35.0 → stScore (some t) = 2) ∧
    (∀ t : ℚ, 35.0 < t → t ≤ 35.5 → stScore (some t) = 1) := by
  have hmain : ∀ t : ℚ, stScore (some t) =
      (if t ≥ 38.5 then 3 else if t ≥ 37.8 then 2 else if t ≤ 35.0 then 2
        else if t ≤ 35.5 then 1 else 0) := by
    intro t
    simp only [stScore, stBlock, THRESHOLDS]
    split_ifs <;> norm_num
  refine ⟨hmain, fun t ht => ?_, fun t h1 h2 => ?_⟩ <;> rw [hmain] <;>
    split_ifs <;> first | rfl | linarith

theorem c7_skin_temp_tiers_witness :
    stScore (some 34) = 2 ∧ stScore (some (35.2 : ℚ)) = 1 :=
  ⟨c7_skin_temp_tiers.2.1 34 (by norm_num),
    c7_skin_temp_tiers.2.2 (35.2 : ℚ) (by norm_num) (by norm_num)⟩


/-- C8: the diastolic contribution follows the claimed disjoint ranges; in
particular the high3 (at least 110) and high2 (100 to below 110) tiers both
award 2, not 3 and 2, and at most one branch fires. -/
theorem c8_diastolic_tiers (d : ℚ) :
    diaScore (some d) =
      (if d ≥ 110 then 2 else if 100 ≤ d ∧ d < 110 then 2 else if 90 ≤ d ∧ d < 100 then 1
        else if d ≤ 45 then 2 else if 45 < d ∧ d ≤ 50 then 2 else if 50 < d ∧ d ≤ 60 then 1
        else 0) := by
  simp only [diaScore, diaBlock, THRESHOLDS]
  rcases le_or_lt 110 d with hA | hA
  · rw [if_pos (show d ≥ 110 from hA), if_pos (show d ≥ 110 from hA), zero_add]
  · rcases le_or_lt 100 d with hB | hB
    · rw [if_neg (show ¬d ≥ 110 by linarith), if_pos (show d ≥ 100 from hB),
        if_neg (show ¬d ≥ 110 by linarith), if_pos (show 100 ≤ d ∧ d < 110 from ⟨hB, hA⟩),
        zero_add]
    · rcases le_or_lt 90 d with hC | hC
      · rw [if_neg (show ¬d ≥ 110 by linarith), if_neg (show ¬d ≥ 100 by linarith),
          if_pos (show d ≥ 90 from hC), if_neg (show ¬d ≥ 110 by linarith),
          if_neg (show ¬(100 ≤ d ∧ d < 110) by rintro ⟨hx, hy⟩; linarith),
          if_pos (show 90 ≤ d ∧ d < 100 from ⟨hC, hB⟩), zero_add]
      · rcases le_or_lt d 45 with hD | hD
        · rw [if_neg (show ¬d ≥ 110 by linarith), if_neg (show ¬d ≥ 100 by linarith),
            if_neg (show ¬d ≥ 90 by linarith), if_pos (show d ≤ 45 from hD),
            if_neg (show ¬d ≥ 110 by linarith),
            if_neg (show ¬(100 ≤ d ∧ d < 110) by rintro ⟨hx, hy⟩; linarith),
            if_neg (show ¬(90 ≤ d ∧ d < 100) by rintro ⟨hx, hy⟩; linarith),
            if_pos (show d ≤ 45 from hD), zero_add]
        · rcases le_or_lt d 50 with hE | hE
          · rw [if_neg (show ¬d ≥ 110 by linarith), if_neg (show ¬d ≥ 100 by linarith),
              if_neg (show ¬d ≥ 90 by linarith), if_neg (show ¬d ≤ 45 by linarith),
              if_pos (show d ≤ 50 from hE), if_neg (show ¬d ≥ 110 by linarith),
              if_neg (show ¬(100 ≤ d ∧ d < 110) by rintro ⟨hx, hy⟩; linarith),
              if_neg (show ¬(90 ≤ d ∧ d < 100) by rintro ⟨hx, hy⟩; linarith),
              if_neg (show ¬d ≤ 45 by linarith),
              if_pos (show 45 < d ∧ d ≤ 50 from ⟨hD, hE⟩), zero_add]
          · rcases le_or_lt d 60 with hF | hF
            · rw [if_neg (show ¬d ≥ 110 by linarith), if_neg (show ¬d ≥ 100 by linarith),
                if_neg (show ¬d ≥ 90 by linarith), if_neg (show ¬d ≤ 45 by linarith),
                if_neg (show ¬d ≤ 50 by linarith), if_pos (show d ≤ 60 from hF),
                if_neg (show ¬d ≥ 110 by linarith),
                if_neg (show ¬(100 ≤ d ∧ d < 110) by rintro ⟨hx, hy⟩; linarith),
                if_neg (show ¬(90 ≤ d ∧ d < 100) by rintro ⟨hx, hy⟩; linarith),
                if_neg (show ¬d ≤ 45 by linarith),
                if_neg (show ¬(45 < d ∧ d ≤ 50) by rintro ⟨hx, hy⟩; linarith),
                if_pos (show 50 < d ∧ d ≤ 60 from ⟨hE, hF⟩), zero_add]
            · rw [if_neg (show ¬d ≥ 110 by linarith), if_neg (show ¬d ≥ 100 by linarith),
                if_neg (show ¬d ≥ 90 by linarith), if_neg (show ¬d ≤ 45 by linarith),
                if_neg (show ¬d ≤ 50 by linarith), if_neg (show ¬d ≤ 60 by linarith),
                if_neg (show ¬d ≥ 110 by linarith),
                if_neg (show ¬(100 ≤ d ∧ d < 110) by rintro ⟨hx, hy⟩; linarith),
                if_neg (show ¬(90 ≤ d ∧ d < 100) by rintro ⟨hx, hy⟩; linarith),
                if_neg (show ¬d ≤ 45 by linarith),
                if_neg (show ¬(45 < d ∧ d ≤ 50) by rintro ⟨hx, hy⟩; linarith),
                if_neg (show ¬(50 < d ∧ d ≤ 60) by rintro ⟨hx, hy⟩; linarith)]

lemma hrScore_bounds (x : Option ℚ) : 0 ≤ hrScore x ∧ hrScore x ≤ 3 := by
  cases x
  · norm_num [hrScore, hrBlock]
  · simp only [hrScore, hrBlock]
    split_ifs <;> norm_num

lemma spo2Score_bounds (x : Option ℚ) : 0 ≤ spo2Score x ∧ spo2Score x ≤ 3 := by
  cases x
  · norm_num [spo2Score, spo2Block]
  · simp only [spo2Score, spo2Block]
    split_ifs <;> norm_num

lemma stScore_bounds (x : Option ℚ) : 0 ≤ stScore x ∧ stScore x ≤ 3 := by
  cases x
  · norm_num [stScore, stBlock]
  · simp only [stScore, stBlock]
    split_ifs <;> norm_num

lemma sysScore_bounds (x : Option ℚ) : 0 ≤ sysScore x ∧ sysScore x ≤ 3 := by
  cases x
  · norm_num [sysScore, sysBlock]
  · simp only [sysScore, sysBlock]
    split_ifs <;> norm_num

lemma diaScore_bounds (x : Option ℚ) : 0 ≤ diaScore x ∧ diaScore x ≤ 2 := by
  cases x
  · norm_num [diaScore, diaBlock]
  · simp only [diaScore, diaBlock]
    split_ifs <;> norm_num

lemma altScore_bounds (a : ℚ) (x : Option ℚ) : 0 ≤ altScore a x ∧ altScore a x ≤ 4 := by
  simp only [altScore, altBlock]
  split_ifs <;> norm_num

lemma stepsScore_bounds (n : ℤ) : 0 ≤ stepsScore n ∧ stepsScore n ≤ 2 := by
  simp only [stepsScore, stepsBlock]
  split_ifs <;> norm_num

lemma incScore_bounds (f : ℤ) : 0 ≤ incScore f ∧ incScore f ≤ 2 := by
  simp only [incScore, incBlock]
  split_ifs <;> norm_num

lemma weatherScore_bounds (w : String) (st hr : Option ℚ) :
    0 ≤ weatherScore w st hr ∧ weatherScore w st hr ≤ 2 := by
  simp only [weatherScore, weatherBlock]
  split_ifs <;> norm_num

/-- Every total between 0 and 99 is inside one configured band, and the
mapping returns that band's label (no fallback). -/
lemma bands_cover (t : ℤ) (h0 : 0 ≤ t) (h99 : t ≤ 99) :
    ∃ b ∈ THRESHOLDS.label_bands, b.1 ≤ t ∧ t ≤ b.2.1 ∧
      map_total_to_label t THRESHOLDS.label_bands = b.2.2 := by
  have hb : THRESHOLDS.label_bands =
      [(0, 2, "LOW"), (3, 6, "MODERATE"), (7, 11, "HIGH"), (12, 99, "CRITICAL")] := rfl
  rw [hb]
  simp only [map_total_to_label]
  by_cases h2 : t ≤ 2
  · refine ⟨(0, 2, "LOW"), by decide, by dsimp only; omega, by dsimp only; omega, ?_⟩
    rw [if_pos ⟨h0, h2⟩]
  · by_cases h6 : t ≤ 6
    · refine ⟨(3, 6, "MODERATE"), by decide, by dsimp only; omega, by dsimp only; omega, ?_⟩
      rw [if_neg (by omega), if_pos (by omega)]
    · by_cases h11 : t ≤ 11
      · refine ⟨(7, 11, "HIGH"), by decide, by dsimp only; omega, by dsimp only; omega, ?_⟩
        rw [if_neg (by omega), if_neg (by omega), if_pos (by omega)]
      · refine ⟨(12, 99, "CRITICAL"), by decide, by dsimp only; omega, by dsimp only; omega, ?_⟩
        rw [if_neg (by omega), if_neg (by omega), if_neg (by omega), if_pos (by omega)]

/-- C9: for every well-formed record the total is between 0 and 24, so it
lands inside a configured band and the label is that band's label: the
fallback of map_total_to_label is unreachable from rule_label_row. -/
theorem c9_total_bounded (r : Record)
    (_hw : r.weather_condition ∈
      ["Clear", "Hot", "Cold", "Rain", "Storm", "Snow", "Windy", "Fog"])
    (_hs : 0 ≤ r.steps) :
    0 ≤ rule_total r ∧ rule_total r ≤ 24 ∧
    ∃ b ∈ THRESHOLDS.label_bands, b.1 ≤ rule_total r ∧ rule_total r ≤ b.2.1 ∧
      rule_label_row r = b.2.2 := by
  have hd := rule_total_decomp r
  obtain ⟨a1, b1⟩ := hrScore_bounds r.hr_bpm
  obtain ⟨a2, b2⟩ := spo2Score_bounds r.spo2_pct
  obtain ⟨a3, b3⟩ := stScore_bounds r.skin_temp
  obtain ⟨a4, b4⟩ := sysScore_bounds r.bloodpressure_systolic
  obtain ⟨a5, b5⟩ := diaScore_bounds r.bp_diastolic
  obtain ⟨a6, b6⟩ := altScore_bounds r.altitude r.spo2_pct
  obtain ⟨a7, b7⟩ := stepsScore_bounds r.steps
  obtain ⟨a8, b8⟩ := incScore_bounds r.past_incident_flag
  obtain ⟨a9, b9⟩ := weatherScore_bounds r.weather_condition r.skin_temp r.hr_bpm
  have h0 : 0 ≤ rule_total r := by rw [hd]; linarith
  have h24 : rule_total r ≤ 24 := by rw [hd]; linarith
  obtain ⟨b, hbmem, hb1, hb2, hb3⟩ := bands_cover (rule_total r) h0 (by linarith)
  exact ⟨h0, h24, b, hbmem, hb1, hb2, hb3⟩

/-- A well-formed record used to instantiate the C9 bound. -/
def rec9 : Record where
  hr_bpm := none
  spo2_pct := none
  skin_temp := none
  bloodpressure_systolic := none
  bp_diastolic := none
  altitude := 2800
  steps := 100
  past_incident_flag := 1
  weather_condition := "Storm"

theorem c9_total_bounded_witness :
    0 ≤ rule_total rec9 ∧ rule_total rec9 ≤ 24 ∧
    ∃ b ∈ THRESHOLDS.label_bands, b.1 ≤ rule_total rec9 ∧ rule_total rec9 ≤ b.2.1 ∧
      rule_label_row rec9 = b.2.2 :=
  c9_total_bounded rec9 (by decide) (by decide)

/-- The simpler activity sub-score the refinement claim states: 2 when steps
are at most 2000, else 1 when steps are at least 30000, else 0. -/
def stepsScoreSpec (n : ℤ) : ℤ :=
  if n ≤ 2000 then 2 else if n ≥ 30000 then 1 else 0

/-- C10: for every non-negative step count, the activity sub-score of the
source equals the simpler three-way function, and the inline
"elif steps <= 1000" branch is unreachable because its guard is subsumed by
the preceding "steps <= 2000" test. -/
theorem c10_steps_refinement (n : ℤ) (_h : 0 ≤ n) :
    stepsScore n = stepsScoreSpec n ∧ ¬(¬(n ≤ 2000) ∧ n ≤ 1000) := by
  refine ⟨?_, by omega⟩
  simp only [stepsScore, stepsBlock, stepsScoreSpec, THRESHOLDS]
  split_ifs <;> first | rfl | omega

theorem c10_steps_refinement_witness :
    stepsScore 500 = stepsScoreSpec 500 ∧ ¬(¬((500 : ℤ) ≤ 2000) ∧ (500 : ℤ) ≤ 1000) :=
  c10_steps_refinement 500 (by norm_num)

end RiskGen
